import Mathlib

/-!
Shallow embedding of the failover engine in
`uptime-kuma-cloudflare-failover.py` (the fuller of the two script variants in
this repository; every claim cites this file).  Pure computations are modelled
directly.  The pieces of process state the engine reads and writes (the shared
`ServiceState`, the DNS record cache and the durable state file) are threaded
explicitly through a `World` record, and the network is abstracted by an `Env`
record fixing what the registrar would answer.  Timestamps are modelled as
integer epoch seconds (the script stores ISO strings and compares their
difference in seconds); Python integers are unbounded, hence `Int`.
-/

namespace Failover

/-- Configuration drawn from environment variables at process start:
`SERVER1_IP`, `SERVER2_IP`, `DNS_RECORD_NAMES`, `TTL`. -/
structure Config where
  server1_ip : String
  server2_ip : String
  dns_record_names : List String
  ttl_default : Int
deriving Repr, DecidableEq

/-- Mirror of the Python dataclass `ServiceState`.  The four streak fields are
named `_s1_down_streak`, `_s1_up_streak`, `_s2_down_streak`, `_s2_up_streak` in
Python; the leading underscore is dropped in the Lean field names but kept in
the serialized keys (see `ServiceState.asdict`).  `last_switch_at` holds an
epoch-seconds timestamp in place of the ISO string. -/
structure ServiceState where
  server1_up : Bool := true
  server2_up : Bool := true
  current_dns : String
  last_switch_at : Option Int := none
  freeze : Bool := false
  ttl : Int := 60
  webhook_secret : Option String := none
  down_threshold : Int := 1
  up_threshold : Int := 1
  cooldown_seconds : Int := 0
  s1_down_streak : Int := 0
  s1_up_streak : Int := 0
  s2_down_streak : Int := 0
  s2_up_streak : Int := 0
deriving Repr, DecidableEq

/-- A cached Cloudflare DNS record.  The fields mirror the keys the script
reads from the registrar JSON: `record.get("id")` may be absent, and
`record.get("type", "A")` / `record.get("proxied", False)` carry defaults, so
those are `Option`s here.  `rtype` stands for the Python key `"type"`. -/
structure DnsRecord where
  name : String
  id : Option String := none
  rtype : Option String := none
  content : Option String := none
  rttl : Option Int := none
  proxied : Option Bool := none
deriving Repr, DecidableEq

/-- The mutable process state the engine touches: the shared `app_state`, the
global `cached_records` dict (kept as a list in insertion order, unique names),
and the last snapshot written to `STATE_FILE` (`none` before any save). -/
structure World where
  st : ServiceState
  cache : List DnsRecord := []
  persisted : Option ServiceState := none
deriving Repr, DecidableEq

/-- The registrar as the process sees it: `fetched` is the concatenation of
the pages a `load_dns_records` call would receive, and `put_ok` tells whether
the PUT for a given record comes back `resp.ok`. -/
structure Env where
  fetched : List DnsRecord := []
  put_ok : DnsRecord → Bool := fun _ => true

/-- The four distinguishable outcomes `decide_failover` reports (the frozen
hold, the cooldown hold, a switch message carrying the new IP, and the
no-change message). -/
inductive Outcome where
  | frozen
  | cooldownHold
  | switched (ip : String)
  | unchanged
deriving Repr, DecidableEq

/-- Mirror of `_cooldown_ok`: true when no cooldown is configured (Python
falsiness of `cooldown_seconds`, i.e. zero), when no switch has been recorded,
or when at least `cooldown_seconds` have elapsed since the recorded switch.
(The Python version also returns true when the stored timestamp fails to
parse; well-formed timestamps are an invariant of this model.) -/
def cooldown_ok (st : ServiceState) (now : Int) : Bool :=
  if st.cooldown_seconds = 0 then true
  else
    match st.last_switch_at with
    | none => true
    | some last => decide (now - last ≥ st.cooldown_seconds)

/-- First streak-update block of `decide_failover` (server 1). -/
def updateStreaks1 (st : ServiceState) : ServiceState :=
  if st.server1_up then
    { st with s1_up_streak := st.s1_up_streak + 1, s1_down_streak := 0 }
  else
    { st with s1_down_streak := st.s1_down_streak + 1, s1_up_streak := 0 }

/-- Second streak-update block of `decide_failover` (server 2). -/
def updateStreaks2 (st : ServiceState) : ServiceState :=
  if st.server2_up then
    { st with s2_up_streak := st.s2_up_streak + 1, s2_down_streak := 0 }
  else
    { st with s2_down_streak := st.s2_down_streak + 1, s2_up_streak := 0 }

/-- Both streak-update blocks, in the order the script runs them. -/
def updateStreaks (st : ServiceState) : ServiceState :=
  updateStreaks2 (updateStreaks1 st)

/-- The `choose_s1` condition of `decide_failover`, verbatim. -/
def choose_s1 (st : ServiceState) : Prop :=
  st.server1_up = true ∧ (st.up_threshold ≤ 1 ∨ st.s1_up_streak ≥ st.up_threshold)

instance (st : ServiceState) : Decidable (choose_s1 st) :=
  inferInstanceAs (Decidable (st.server1_up = true ∧
    (st.up_threshold ≤ 1 ∨ st.s1_up_streak ≥ st.up_threshold)))

/-- The `choose_s2` condition of `decide_failover`, verbatim. -/
def choose_s2 (st : ServiceState) : Prop :=
  st.server1_up = false ∧ st.server2_up = true ∧
    (st.up_threshold ≤ 1 ∨ st.s2_up_streak ≥ st.up_threshold)

instance (st : ServiceState) : Decidable (choose_s2 st) :=
  inferInstanceAs (Decidable (st.server1_up = false ∧ st.server2_up = true ∧
    (st.up_threshold ≤ 1 ∨ st.s2_up_streak ≥ st.up_threshold)))

/-- The `desired_ip` computation of `decide_failover`: server 1 when chosen,
else server 2 when chosen, else the currently published value. -/
def desired_ip (cfg : Config) (st : ServiceState) : String :=
  if choose_s1 st then cfg.server1_ip
  else if choose_s2 st then cfg.server2_ip
  else st.current_dns

/-- Dict insertion keyed by record name, as building the Python
`found: Dict[str, Dict]` does: a repeated name replaces the stored record in
place, a new name appends. -/
def dict_insert (m : List DnsRecord) (r : DnsRecord) : List DnsRecord :=
  if m.any (fun x => x.name == r.name) then
    m.map (fun x => if x.name == r.name then r else x)
  else m ++ [r]

/-- Fold a fetched record list into the name-keyed cache dict. -/
def dict_of_records (rs : List DnsRecord) : List DnsRecord :=
  rs.foldl dict_insert []

/-- Mirror of `load_dns_records`: keep the fetched records whose name is in
the configured allow-list (all of them when the list is empty), keyed by
name.  `env.fetched` stands for the concatenated pagination results. -/
def load_dns_records (cfg : Config) (fetched : List DnsRecord) : List DnsRecord :=
  dict_of_records (fetched.filter
    (fun r => cfg.dns_record_names.isEmpty || cfg.dns_record_names.contains r.name))

/-- The JSON payload the script PUTs for one record. -/
structure PutPayload where
  ptype : String
  name : String
  content : String
  ttl : Int
  proxied : Bool
deriving Repr, DecidableEq

/-- One PUT request issued inside the `update_dns` loop, with whether the
registrar answered ok. -/
structure PutAttempt where
  record_name : String
  record_id : String
  payload : PutPayload
  ok : Bool
deriving Repr, DecidableEq

/-- Python truthiness of the `record.get("id")` value: absent or empty means
falsy, so the loop skips the record. -/
def truthy_id : Option String → Bool
  | none => false
  | some s => s != ""

/-- The per-record loop of `update_dns`: records whose id is falsy are
skipped (`continue`); every other record gets exactly one PUT whose payload
copies the cached `type`/`proxied` (with the Python `get` defaults) and the
configured ttl; a failed PUT is only logged, the loop always continues. -/
def put_loop (env : Env) (ttl : Int) (new_ip : String) : List DnsRecord → List PutAttempt
  | [] => []
  | r :: rest =>
    match r.id with
    | none => put_loop env ttl new_ip rest
    | some rid =>
      if rid = "" then put_loop env ttl new_ip rest
      else
        { record_name := r.name, record_id := rid,
          payload := { ptype := r.rtype.getD "A", name := r.name, content := new_ip,
                       ttl := ttl, proxied := r.proxied.getD false },
          ok := env.put_ok r } :: put_loop env ttl new_ip rest

/-- Mirror of `update_dns`: refresh the cache when it is empty; abort with no
state change when it is still empty; otherwise run the PUT loop over every
cached record and, regardless of individual PUT failures, commit
`current_dns := new_ip`, stamp `last_switch_at` and save the state.  The
returned list is the PUTs issued, and the final flag tells whether the commit
happened. -/
def update_dns (cfg : Config) (env : Env) (w : World) (new_ip : String) (now : Int) :
    World × List PutAttempt × Bool :=
  let cache := if w.cache.isEmpty then load_dns_records cfg env.fetched else w.cache
  if cache.isEmpty then ({ w with cache := cache }, [], false)
  else
    let st' := { w.st with current_dns := new_ip, last_switch_at := some now }
    ({ st := st', cache := cache, persisted := some st' },
     put_loop env w.st.ttl new_ip cache, true)

/-- Body of `decide_failover` after the freeze gate: cooldown check, streak
update, desired-target computation, then either a publish through
`update_dns` or a state save with no change. -/
def decide_core (cfg : Config) (env : Env) (w : World) (now : Int) : World × Outcome :=
  if cooldown_ok w.st now then
    let st := updateStreaks w.st
    let desired := desired_ip cfg st
    if desired = st.current_dns then
      ({ w with st := st, persisted := some st }, Outcome.unchanged)
    else
      ((update_dns cfg env { w with st := st } desired now).1, Outcome.switched desired)
  else (w, Outcome.cooldownHold)

/-- Mirror of `decide_failover`: the freeze flag is checked first and returns
at once, touching nothing. -/
def decide_failover (cfg : Config) (env : Env) (w : World) (now : Int) : World × Outcome :=
  if w.st.freeze then (w, Outcome.frozen) else decide_core cfg env w now

/-- The state write a heartbeat for server 1 performs before deciding:
`app_state.server1_up = is_up`. -/
def report_s1 (w : World) (is_up : Bool) : World :=
  { w with st := { w.st with server1_up := is_up } }

/-- One server-1 heartbeat as the webhook handler runs it: record the flag,
then run a decision. -/
def heartbeat_s1 (cfg : Config) (env : Env) (w : World) (now : Int) (is_up : Bool) :
    World × Outcome :=
  decide_failover cfg env (report_s1 w is_up) now

/-- `k` consecutive server-1 heartbeats reporting up (all at time `now`;
time only matters through the cooldown check). -/
def s1_up_run (cfg : Config) (env : Env) (now : Int) : Nat → World → World
  | 0, w => w
  | Nat.succ k, w => s1_up_run cfg env now k (heartbeat_s1 cfg env w now true).1

/-- Python lowercasing of one ASCII character, for the `.lower()` call in the
manual-switch handler.  (Implemented directly so that proofs can evaluate it.) -/
def lower_char (c : Char) : Char :=
  if 65 ≤ c.toNat ∧ c.toNat ≤ 90 then Char.ofNat (c.toNat + 32) else c

/-- Python `str.lower()` over the characters of a string. -/
def lower_str (s : String) : String :=
  String.mk (s.data.map lower_char)

/-- Mirror of the `api_switch` handler body after CSRF: lowercase the form
target, reject anything other than `server1`/`server2` with a 400 (`none`),
otherwise call `update_dns` directly — no freeze or cooldown check on this
path. -/
def api_switch (cfg : Config) (env : Env) (w : World) (now : Int) (target : String) :
    Option (World × List PutAttempt × Bool) :=
  let t := lower_str target
  if t = "server1" then some (update_dns cfg env w cfg.server1_ip now)
  else if t = "server2" then some (update_dns cfg env w cfg.server2_ip now)
  else none

/-- JSON values, as far as the webhook bodies need them.  Numbers are kept as
integers: the scripts only ever compare the status against `1`. -/
inductive JVal where
  | jnull
  | jbool (b : Bool)
  | jnum (n : Int)
  | jstr (s : String)
  | jobj (fields : List (String × JVal))
  | jarr (xs : List JVal)

/-- Python dict lookup over parsed JSON object fields (on duplicate keys,
`json.loads` keeps the last one). -/
def jlookup (fields : List (String × JVal)) (k : String) : Option JVal :=
  fields.foldl (fun acc kv => if kv.1 = k then some kv.2 else acc) none

/-- Digits-only string to number, for the `int(...)` coercion. -/
def digits_to_nat : List Char → Option Nat
  | [] => none
  | cs =>
    cs.foldl
      (fun acc c =>
        match acc with
        | none => none
        | some n => if c.isDigit then some (n * 10 + (c.toNat - 48)) else none)
      (some 0)

/-- Python `int(s)` on a string: an optional sign followed by digits; anything
else raises.  (Python also tolerates surrounding whitespace and underscore
separators; those cases are outside this model.) -/
def str_to_int (s : String) : Option Int :=
  match s.data with
  | [] => none
  | c :: rest =>
    if c = '-' then (digits_to_nat rest).map (fun n => -(n : Int))
    else if c = '+' then (digits_to_nat rest).map (fun n => (n : Int))
    else (digits_to_nat (c :: rest)).map (fun n => (n : Int))

/-- Python `int(v)` over a JSON value: bools and numbers convert, numeric
strings parse, everything else raises (`none`). -/
def pyInt : JVal → Option Int
  | JVal.jbool b => some (if b then 1 else 0)
  | JVal.jnum n => some n
  | JVal.jstr s => str_to_int s
  | _ => none

/-- The navigation `body.get("heartbeat", \x7b\x7d)` shared by the status
parse: yields the heartbeat object fields, or `none` when the body is not an
object or the defaulted heartbeat value is not an object (Python raises an
AttributeError there, which `_parse_status` turns into `False`). -/
def heartbeat_obj (body : JVal) : Option (List (String × JVal)) :=
  match body with
  | JVal.jobj fields =>
    match (jlookup fields "heartbeat").getD (JVal.jobj []) with
    | JVal.jobj hfields => some hfields
    | _ => none
  | _ => none

/-- Mirror of `_parse_status`: evaluate
`int(body.get("heartbeat", \x7b\x7d).get("status", 0)) == 1` and coerce every
exception along the way to `False`. -/
def parse_status (body : JVal) : Bool :=
  match heartbeat_obj body with
  | none => false
  | some hfields =>
    match pyInt ((jlookup hfields "status").getD (JVal.jnum 0)) with
    | some n => n == 1
    | none => false

/-- A heartbeat body whose status is malformed in the sense of claim C5: the
nested heartbeat status field is missing (including a missing or non-object
heartbeat, or a non-object body) or present but non-numeric (Python `int` of
it raises). -/
def malformed_status (body : JVal) : Bool :=
  match heartbeat_obj body with
  | none => true
  | some hfields =>
    match jlookup hfields "status" with
    | none => true
    | some v => (pyInt v).isNone

/-- Mirror of `_check_webhook_secret`: pass only when the request header and
the stored secret are both truthy and equal (`secrets.compare_digest`). -/
def check_webhook_secret (st : ServiceState) (header : Option String) : Bool :=
  match header, st.webhook_secret with
  | some h, some ws => if h = "" then false else if ws = "" then false else h == ws
  | _, _ => false

/-- Mirror of the `webhook_server1` handler: reject on a bad secret (`none`
for the 401 abort), otherwise resolve the body through `_parse_status`, store
the flag and run a decision. -/
def webhook_server1 (cfg : Config) (env : Env) (w : World) (now : Int)
    (header : Option String) (body : JVal) : Option (World × Outcome) :=
  if check_webhook_secret w.st header then
    some (heartbeat_s1 cfg env w now (parse_status body))
  else none

/-- One serialized field value of the state JSON. -/
inductive FieldVal where
  | vb (b : Bool)
  | vs (s : String)
  | vi (n : Int)
  | vnull
deriving Repr, DecidableEq

/-- Serialize an optional string field. -/
def optStrField : Option String → FieldVal
  | none => FieldVal.vnull
  | some s => FieldVal.vs s

/-- Serialize an optional timestamp field. -/
def optIntField : Option Int → FieldVal
  | none => FieldVal.vnull
  | some n => FieldVal.vi n

/-- Python truthiness of a serialized field value, for the
`d.get("webhook_secret")` check in `to_public`. -/
def truthyField : FieldVal → Bool
  | FieldVal.vnull => false
  | FieldVal.vs s => s != ""
  | FieldVal.vb b => b
  | FieldVal.vi n => n != 0

/-- The `k.startswith("_s")` test `to_public` applies to each key. -/
def starts_with_underscore_s (k : String) : Bool :=
  match k.data with
  | c1 :: c2 :: _ => c1 == '_' && c2 == 's'
  | _ => false

/-- Mirror of `dataclasses.asdict(self)`: every field under its Python name,
in declaration order.  This is exactly what `ServiceState.save` writes to the
state file. -/
def ServiceState.asdict (st : ServiceState) : List (String × FieldVal) :=
  [("server1_up", FieldVal.vb st.server1_up),
   ("server2_up", FieldVal.vb st.server2_up),
   ("current_dns", FieldVal.vs st.current_dns),
   ("last_switch_at", optIntField st.last_switch_at),
   ("freeze", FieldVal.vb st.freeze),
   ("ttl", FieldVal.vi st.ttl),
   ("webhook_secret", optStrField st.webhook_secret),
   ("down_threshold", FieldVal.vi st.down_threshold),
   ("up_threshold", FieldVal.vi st.up_threshold),
   ("cooldown_seconds", FieldVal.vi st.cooldown_seconds),
   ("_s1_down_streak", FieldVal.vi st.s1_down_streak),
   ("_s1_up_streak", FieldVal.vi st.s1_up_streak),
   ("_s2_down_streak", FieldVal.vi st.s2_down_streak),
   ("_s2_up_streak", FieldVal.vi st.s2_up_streak)]

/-- The record `ServiceState.save` writes to disk: the full `asdict`, secret
included. -/
def ServiceState.save_record (st : ServiceState) : List (String × FieldVal) :=
  st.asdict

/-- Mirror of `ServiceState.to_public`: drop every key starting with `_s`,
then mask a truthy `webhook_secret` with three asterisks. -/
def ServiceState.to_public (st : ServiceState) : List (String × FieldVal) :=
  let d := st.asdict.filter (fun kv => !(starts_with_underscore_s kv.1))
  match List.lookup "webhook_secret" d with
  | some v =>
    if truthyField v then
      d.map (fun kv => if kv.1 = "webhook_secret" then (kv.1, FieldVal.vs "***") else kv)
    else d
  | none => d

/-- Pure core of `ServiceState.load`: given the state decoded from disk (or
the compiled-in defaults when the file is missing or corrupt), generate a
webhook secret when the stored one is falsy, with `secrets.token_urlsafe(24)`
abstracted as the nonempty `fresh` parameter.  The file itself is not
rewritten here; the generated secret reaches disk at the next `save`. -/
def ServiceState.load_core (decoded : ServiceState) (fresh : String) : ServiceState :=
  match decoded.webhook_secret with
  | none => { decoded with webhook_secret := some fresh }
  | some s => if s = "" then { decoded with webhook_secret := some fresh } else decoded

/-! Helper lemmas about the embedded operations. -/

theorem updateStreaks_spec (st : ServiceState) :
    updateStreaks st =
      { st with
        s1_up_streak := if st.server1_up then st.s1_up_streak + 1 else 0,
        s1_down_streak := if st.server1_up then 0 else st.s1_down_streak + 1,
        s2_up_streak := if st.server2_up then st.s2_up_streak + 1 else 0,
        s2_down_streak := if st.server2_up then 0 else st.s2_down_streak + 1 } := by
  unfold updateStreaks updateStreaks1 updateStreaks2
  cases h1 : st.server1_up <;> cases h2 : st.server2_up <;> simp [h1, h2]

theorem decide_failover_frozen (cfg : Config) (env : Env) (w : World) (now : Int)
    (h : w.st.freeze = true) :
    decide_failover cfg env w now = (w, Outcome.frozen) := by
  unfold decide_failover
  simp [h]

theorem decide_failover_not_frozen (cfg : Config) (env : Env) (w : World) (now : Int)
    (h : w.st.freeze = false) :
    decide_failover cfg env w now = decide_core cfg env w now := by
  unfold decide_failover
  simp [h]

theorem decide_core_cooldown (cfg : Config) (env : Env) (w : World) (now : Int)
    (h : cooldown_ok w.st now = false) :
    decide_core cfg env w now = (w, Outcome.cooldownHold) := by
  unfold decide_core
  simp [h]

theorem update_dns_publish (cfg : Config) (env : Env) (w : World) (ip : String) (now : Int)
    (h : w.cache ≠ []) :
    update_dns cfg env w ip now =
      ({ st := { w.st with current_dns := ip, last_switch_at := some now },
         cache := w.cache,
         persisted := some { w.st with current_dns := ip, last_switch_at := some now } },
       put_loop env w.st.ttl ip w.cache, true) := by
  unfold update_dns
  cases hc : w.cache with
  | nil => exact absurd hc h
  | cons a l => simp

theorem decide_core_unchanged (cfg : Config) (env : Env) (w : World) (now : Int)
    (hc : cooldown_ok w.st now = true)
    (hd : desired_ip cfg (updateStreaks w.st) = (updateStreaks w.st).current_dns) :
    decide_core cfg env w now =
      ({ w with st := updateStreaks w.st, persisted := some (updateStreaks w.st) },
       Outcome.unchanged) := by
  unfold decide_core
  simp [hc, hd]

theorem decide_core_switch (cfg : Config) (env : Env) (w : World) (now : Int)
    (hc : cooldown_ok w.st now = true)
    (hd : desired_ip cfg (updateStreaks w.st) ≠ (updateStreaks w.st).current_dns)
    (hcache : w.cache ≠ []) :
    decide_core cfg env w now =
      ({ st := { updateStreaks w.st with
                   current_dns := desired_ip cfg (updateStreaks w.st),
                   last_switch_at := some now },
         cache := w.cache,
         persisted := some { updateStreaks w.st with
                               current_dns := desired_ip cfg (updateStreaks w.st),
                               last_switch_at := some now } },
       Outcome.switched (desired_ip cfg (updateStreaks w.st))) := by
  unfold decide_core
  rw [if_pos hc, if_neg hd]
  rw [update_dns_publish cfg env { w with st := updateStreaks w.st } _ now hcache]

theorem put_loop_eq_filter_map (env : Env) (ttl : Int) (ip : String) (rs : List DnsRecord) :
    put_loop env ttl ip rs =
      (rs.filter (fun r => truthy_id r.id)).map
        (fun r =>
          { record_name := r.name, record_id := r.id.getD "",
            payload := { ptype := r.rtype.getD "A", name := r.name, content := ip,
                         ttl := ttl, proxied := r.proxied.getD false },
            ok := env.put_ok r }) := by
  induction rs with
  | nil => rfl
  | cons r rest ih =>
    unfold put_loop
    cases hid : r.id with
    | none => simp [truthy_id, hid, ih]
    | some rid =>
      by_cases he : rid = ""
      · simp [truthy_id, hid, he, ih]
      · simp [truthy_id, hid, he, ih]

/-! Hysteresis step lemmas: how one heartbeat moves the world while the
promotion threshold gates recovery. -/

/-- Invariant carried between consecutive server-1 up heartbeats while the
promotion threshold is being waited out: the engine is live (not frozen, no
cooldown), the threshold is `N`, the server-1 up-streak is `j`, and DNS still
points at server 2. -/
def promo_inv (cfg : Config) (N : Nat) (j : Int) (w : World) : Prop :=
  w.st.freeze = false ∧ w.st.cooldown_seconds = 0 ∧ w.st.up_threshold = (N : Int) ∧
  w.st.s1_up_streak = j ∧ w.st.current_dns = cfg.server2_ip ∧ w.cache ≠ []

theorem hold_step (cfg : Config) (env : Env) (w : World) (now : Int) (N : Nat) (j : Int)
    (h2 : 2 ≤ N) (hinv : promo_inv cfg N j w) (hlt : j + 1 < (N : Int)) :
    (heartbeat_s1 cfg env w now true).2 = Outcome.unchanged ∧
    promo_inv cfg N (j + 1) (heartbeat_s1 cfg env w now true).1 := by
  obtain ⟨hf, hcd, hthr, hstreak, hcur, hcache⟩ := hinv
  have hfields :
      (updateStreaks (report_s1 w true).st).server1_up = true ∧
      (updateStreaks (report_s1 w true).st).up_threshold = (N : Int) ∧
      (updateStreaks (report_s1 w true).st).s1_up_streak = j + 1 ∧
      (updateStreaks (report_s1 w true).st).current_dns = cfg.server2_ip ∧
      (updateStreaks (report_s1 w true).st).freeze = false ∧
      (updateStreaks (report_s1 w true).st).cooldown_seconds = 0 := by
    rw [updateStreaks_spec]
    simp [report_s1, hthr, hstreak, hcur, hf, hcd]
  have hck : cooldown_ok (report_s1 w true).st now = true := by
    simp [cooldown_ok, report_s1, hcd]
  have hns1 : ¬ choose_s1 (updateStreaks (report_s1 w true).st) := by
    unfold choose_s1
    rw [hfields.2.1, hfields.2.2.1]
    rintro ⟨-, h | h⟩ <;> omega
  have hns2 : ¬ choose_s2 (updateStreaks (report_s1 w true).st) := by
    unfold choose_s2
    rw [hfields.1]
    rintro ⟨h, -⟩
    simp at h
  have hd : desired_ip cfg (updateStreaks (report_s1 w true).st) =
      (updateStreaks (report_s1 w true).st).current_dns := by
    unfold desired_ip
    rw [if_neg hns1, if_neg hns2]
  have hrun : heartbeat_s1 cfg env w now true =
      ({ report_s1 w true with
          st := updateStreaks (report_s1 w true).st,
          persisted := some (updateStreaks (report_s1 w true).st) },
       Outcome.unchanged) := by
    unfold heartbeat_s1
    rw [decide_failover_not_frozen _ _ _ _ (by simp [report_s1, hf]),
        decide_core_unchanged _ _ _ _ hck hd]
  rw [hrun]
  refine ⟨rfl, hfields.2.2.2.2.1, hfields.2.2.2.2.2, hfields.2.1, hfields.2.2.1,
    hfields.2.2.2.1, ?_⟩
  simpa [report_s1] using hcache

theorem promote_step (cfg : Config) (env : Env) (w : World) (now : Int) (N : Nat) (j : Int)
    (_h2 : 2 ≤ N) (hinv : promo_inv cfg N j w) (hge : (N : Int) ≤ j + 1)
    (hip : cfg.server1_ip ≠ cfg.server2_ip) :
    (heartbeat_s1 cfg env w now true).2 = Outcome.switched cfg.server1_ip ∧
    (heartbeat_s1 cfg env w now true).1.st.current_dns = cfg.server1_ip ∧
    (heartbeat_s1 cfg env w now true).1.st.last_switch_at = some now := by
  obtain ⟨hf, hcd, hthr, hstreak, hcur, hcache⟩ := hinv
  have hfields :
      (updateStreaks (report_s1 w true).st).server1_up = true ∧
      (updateStreaks (report_s1 w true).st).up_threshold = (N : Int) ∧
      (updateStreaks (report_s1 w true).st).s1_up_streak = j + 1 ∧
      (updateStreaks (report_s1 w true).st).current_dns = cfg.server2_ip := by
    rw [updateStreaks_spec]
    simp [report_s1, hthr, hstreak, hcur]
  have hck : cooldown_ok (report_s1 w true).st now = true := by
    simp [cooldown_ok, report_s1, hcd]
  have hcs1 : choose_s1 (updateStreaks (report_s1 w true).st) := by
    unfold choose_s1
    rw [hfields.1, hfields.2.1, hfields.2.2.1]
    exact ⟨rfl, Or.inr hge⟩
  have hdes : desired_ip cfg (updateStreaks (report_s1 w true).st) = cfg.server1_ip := by
    unfold desired_ip
    rw [if_pos hcs1]
  have hd : desired_ip cfg (updateStreaks (report_s1 w true).st) ≠
      (updateStreaks (report_s1 w true).st).current_dns := by
    rw [hdes, hfields.2.2.2]
    exact hip
  have hcache' : (report_s1 w true).cache ≠ [] := by
    simpa [report_s1] using hcache
  have hrun := decide_core_switch cfg env (report_s1 w true) now hck hd hcache'
  have hfz : heartbeat_s1 cfg env w now true = decide_core cfg env (report_s1 w true) now := by
    unfold heartbeat_s1
    exact decide_failover_not_frozen _ _ _ _ (by simp [report_s1, hf])
  rw [hfz, hrun, hdes]
  exact ⟨rfl, rfl, rfl⟩

theorem fail_step (cfg : Config) (env : Env) (w : World) (now : Int)
    (hf : w.st.freeze = false) (hcd : w.st.cooldown_seconds = 0)
    (hs2 : w.st.server2_up = true)
    (helig : w.st.up_threshold ≤ 1 ∨ w.st.s2_up_streak + 1 ≥ w.st.up_threshold)
    (hcur : w.st.current_dns = cfg.server1_ip)
    (hip : cfg.server1_ip ≠ cfg.server2_ip)
    (hcache : w.cache ≠ []) :
    (heartbeat_s1 cfg env w now false).2 = Outcome.switched cfg.server2_ip ∧
    (heartbeat_s1 cfg env w now false).1.st.freeze = false ∧
    (heartbeat_s1 cfg env w now false).1.st.cooldown_seconds = 0 ∧
    (heartbeat_s1 cfg env w now false).1.st.up_threshold = w.st.up_threshold ∧
    (heartbeat_s1 cfg env w now false).1.st.s1_up_streak = 0 ∧
    (heartbeat_s1 cfg env w now false).1.st.current_dns = cfg.server2_ip ∧
    (heartbeat_s1 cfg env w now false).1.st.last_switch_at = some now ∧
    (heartbeat_s1 cfg env w now false).1.cache = w.cache := by
  have hfields :
      (updateStreaks (report_s1 w false).st).server1_up = false ∧
      (updateStreaks (report_s1 w false).st).server2_up = true ∧
      (updateStreaks (report_s1 w false).st).up_threshold = w.st.up_threshold ∧
      (updateStreaks (report_s1 w false).st).s1_up_streak = 0 ∧
      (updateStreaks (report_s1 w false).st).s2_up_streak = w.st.s2_up_streak + 1 ∧
      (updateStreaks (report_s1 w false).st).current_dns = cfg.server1_ip ∧
      (updateStreaks (report_s1 w false).st).freeze = false ∧
      (updateStreaks (report_s1 w false).st).cooldown_seconds = 0 := by
    rw [updateStreaks_spec]
    simp [report_s1, hs2, hcur, hf, hcd]
  have hck : cooldown_ok (report_s1 w false).st now = true := by
    simp [cooldown_ok, report_s1, hcd]
  have hns1 : ¬ choose_s1 (updateStreaks (report_s1 w false).st) := by
    unfold choose_s1
    rw [hfields.1]
    rintro ⟨h, -⟩
    simp at h
  have hcs2 : choose_s2 (updateStreaks (report_s1 w false).st) := by
    unfold choose_s2
    rw [hfields.1, hfields.2.1, hfields.2.2.1, hfields.2.2.2.2.1]
    exact ⟨rfl, rfl, helig⟩
  have hdes : desired_ip cfg (updateStreaks (report_s1 w false).st) = cfg.server2_ip := by
    unfold desired_ip
    rw [if_neg hns1, if_pos hcs2]
  have hd : desired_ip cfg (updateStreaks (report_s1 w false).st) ≠
      (updateStreaks (report_s1 w false).st).current_dns := by
    rw [hdes, hfields.2.2.2.2.2.1]
    exact fun h => hip h.symm
  have hcache' : (report_s1 w false).cache ≠ [] := by
    simpa [report_s1] using hcache
  have hrun := decide_core_switch cfg env (report_s1 w false) now hck hd hcache'
  have hfz : heartbeat_s1 cfg env w now false =
      decide_core cfg env (report_s1 w false) now := by
    unfold heartbeat_s1
    exact decide_failover_not_frozen _ _ _ _ (by simp [report_s1, hf])
  rw [hfz, hrun, hdes]
  exact ⟨rfl, hfields.2.2.2.2.2.2.1, hfields.2.2.2.2.2.2.2, hfields.2.2.1,
    hfields.2.2.2.1, rfl, rfl, by simp [report_s1]⟩

theorem s1_up_run_succ (cfg : Config) (env : Env) (now : Int) (k : Nat) (w : World) :
    s1_up_run cfg env now (k + 1) w =
      (heartbeat_s1 cfg env (s1_up_run cfg env now k w) now true).1 := by
  induction k generalizing w with
  | zero => rfl
  | succ k ih =>
    have hstep : s1_up_run cfg env now (k + 1 + 1) w =
        s1_up_run cfg env now (k + 1) (heartbeat_s1 cfg env w now true).1 := rfl
    rw [hstep, ih]
    rfl

theorem s1_up_run_inv (cfg : Config) (env : Env) (now : Int) (N : Nat) (h2 : 2 ≤ N) :
    ∀ (k : Nat) (j : Int) (w : World), promo_inv cfg N j w → j + (k : Int) < (N : Int) →
      promo_inv cfg N (j + (k : Int)) (s1_up_run cfg env now k w) := by
  intro k
  induction k with
  | zero =>
    intro j w hinv _
    simpa using hinv
  | succ k ih =>
    intro j w hinv hlt
    have hstep := hold_step cfg env w now N j h2 hinv (by push_cast at hlt; omega)
    have hrec := ih (j + 1) (heartbeat_s1 cfg env w now true).1 hstep.2
      (by push_cast at hlt ⊢; omega)
    have heq : j + ((k + 1 : Nat) : Int) = j + 1 + (k : Int) := by push_cast; ring
    rw [heq]
    exact hrec

theorem s1_up_run_promotes (cfg : Config) (env : Env) (now : Int) (N : Nat)
    (h2 : 2 ≤ N) (hip : cfg.server1_ip ≠ cfg.server2_ip) (w : World)
    (hinv : promo_inv cfg N 0 w) :
    (∀ k : Nat, (k : Int) < (N : Int) →
       (s1_up_run cfg env now k w).st.current_dns = cfg.server2_ip) ∧
    (s1_up_run cfg env now N w).st.current_dns = cfg.server1_ip ∧
    (s1_up_run cfg env now N w).st.last_switch_at = some now := by
  refine ⟨?_, ?_⟩
  · intro k hk
    have h := s1_up_run_inv cfg env now N h2 k 0 w hinv (by omega)
    exact h.2.2.2.2.1
  · have hN1 : (0 : Int) + ((N - 1 : Nat) : Int) < (N : Int) := by omega
    have hinv' := s1_up_run_inv cfg env now N h2 (N - 1) 0 w hinv hN1
    have hstep := promote_step cfg env (s1_up_run cfg env now (N - 1) w) now N
      (0 + ((N - 1 : Nat) : Int)) h2 hinv' (by omega) hip
    have hrw : s1_up_run cfg env now N w =
        (heartbeat_s1 cfg env (s1_up_run cfg env now (N - 1) w) now true).1 := by
      conv_lhs => rw [show N = (N - 1) + 1 by omega]
      exact s1_up_run_succ cfg env now (N - 1) w
    rw [hrw]
    exact ⟨hstep.2.1, hstep.2.2⟩

/-! Concrete fixtures used by the witness evaluations. -/

/-- Concrete configuration: the default `SERVER1_IP`/`SERVER2_IP` of the
script, no record-name allow-list, default ttl. -/
def cfg0 : Config :=
  { server1_ip := "1.2.3.4", server2_ip := "5.6.7.8", dns_record_names := [],
    ttl_default := 60 }

/-- A concrete cached record carrying a registrar id. -/
def rec0 : DnsRecord :=
  { name := "app.example.com", id := some "rid1", rtype := some "A",
    content := some "1.2.3.4", rttl := some 60, proxied := some false }

/-- Concrete registrar environment: nothing left to fetch, every PUT succeeds. -/
def env0 : Env := {}

/-- Concrete service state as on first run. -/
def st0 : ServiceState := { current_dns := "1.2.3.4" }

/-- Concrete world with one cached record. -/
def w0 : World := { st := st0, cache := [rec0] }

/-! Claim C1: the desired-target rule. -/

/-- The desired-target rule exactly as the specification words it (claim C1):
target 1 IP when `target1_up` holds and the up-streak passes the threshold
rule; else target 2 IP when target 1 is down, target 2 is up and its streak
passes the same rule; else the currently published value, unchanged. -/
def spec_desired_target (cfg : Config) (st : ServiceState) : String :=
  if st.server1_up = true ∧ (st.up_threshold ≤ 1 ∨ st.s1_up_streak ≥ st.up_threshold) then
    cfg.server1_ip
  else if st.server1_up = false ∧ st.server2_up = true ∧
      (st.up_threshold ≤ 1 ∨ st.s2_up_streak ≥ st.up_threshold) then
    cfg.server2_ip
  else st.current_dns

theorem desired_ip_eq_spec (cfg : Config) (st : ServiceState) :
    desired_ip cfg st = spec_desired_target cfg st := rfl

/-- C1: every decision that reaches the recomputation step (not frozen, past
cooldown) follows the desired-target rule of the spec, evaluated on the streak
counters as this very decision has just updated them; when the rule keeps the
current value the published pointer is held — in particular both targets down
is a hold, never a clear. -/
theorem decide_matches_spec_desired (cfg : Config) (env : Env) (w : World) (now : Int)
    (hf : w.st.freeze = false) (hc : cooldown_ok w.st now = true) :
    ((decide_failover cfg env w now).2 =
       if spec_desired_target cfg (updateStreaks w.st) = w.st.current_dns then
         Outcome.unchanged
       else Outcome.switched (spec_desired_target cfg (updateStreaks w.st))) ∧
    (spec_desired_target cfg (updateStreaks w.st) = w.st.current_dns →
       (decide_failover cfg env w now).1.st.current_dns = w.st.current_dns) ∧
    (w.st.server1_up = false → w.st.server2_up = false →
       spec_desired_target cfg (updateStreaks w.st) = w.st.current_dns ∧
       (decide_failover cfg env w now).1.st.current_dns = w.st.current_dns ∧
       (decide_failover cfg env w now).2 = Outcome.unchanged) := by
  have hcur : (updateStreaks w.st).current_dns = w.st.current_dns := by
    rw [updateStreaks_spec]
  have hflag1 : (updateStreaks w.st).server1_up = w.st.server1_up := by
    rw [updateStreaks_spec]
  have hflag2 : (updateStreaks w.st).server2_up = w.st.server2_up := by
    rw [updateStreaks_spec]
  rw [decide_failover_not_frozen cfg env w now hf]
  by_cases hd : desired_ip cfg (updateStreaks w.st) = (updateStreaks w.st).current_dns
  · have hdm : spec_desired_target cfg (updateStreaks w.st) = w.st.current_dns := by
      rw [← desired_ip_eq_spec, hd, hcur]
    rw [decide_core_unchanged cfg env w now hc hd]
    exact ⟨by rw [if_pos hdm], fun _ => hcur, fun _ _ => ⟨hdm, hcur, rfl⟩⟩
  · have hdm : ¬ spec_desired_target cfg (updateStreaks w.st) = w.st.current_dns := by
      intro h
      apply hd
      rw [desired_ip_eq_spec, h, hcur]
    refine ⟨?_, fun h => absurd h hdm, fun h1 h2 => ?_⟩
    · unfold decide_core
      rw [if_pos hc, if_neg hd, if_neg hdm, desired_ip_eq_spec]
    · exfalso
      apply hd
      have hns1 : ¬ choose_s1 (updateStreaks w.st) := by
        unfold choose_s1
        rw [hflag1, h1]
        rintro ⟨hh, -⟩
        simp at hh
      have hns2 : ¬ choose_s2 (updateStreaks w.st) := by
        unfold choose_s2
        rw [hflag2, h2]
        rintro ⟨-, hh, -⟩
        simp at hh
      unfold desired_ip
      rw [if_neg hns1, if_neg hns2]

/-- Witness for C1 at a concrete world. -/
theorem decide_matches_spec_desired_witness :
    (decide_failover cfg0 env0 w0 0).2 =
      (if spec_desired_target cfg0 (updateStreaks w0.st) = w0.st.current_dns then
         Outcome.unchanged
       else Outcome.switched (spec_desired_target cfg0 (updateStreaks w0.st))) :=
  (decide_matches_spec_desired cfg0 env0 w0 0 rfl rfl).1

/-! Claim C4: freeze holds every decision. -/

/-- C4: while `freeze` is set, every decision returns the frozen hold and
leaves the whole world untouched — no streak recomputation, no publish, no
save, so `current_dns` cannot change; once freeze is clear the decision is
exactly the normal evaluation path `decide_core` again. -/
theorem freeze_holds_decision (cfg : Config) (env : Env) (w : World) (now : Int) :
    (w.st.freeze = true → decide_failover cfg env w now = (w, Outcome.frozen)) ∧
    (w.st.freeze = false → decide_failover cfg env w now = decide_core cfg env w now) :=
  ⟨decide_failover_frozen cfg env w now, decide_failover_not_frozen cfg env w now⟩

/-- A frozen concrete world. -/
def w_frozen : World := { st := { st0 with freeze := true }, cache := [rec0] }

/-- Witness for C4: a frozen world is returned unchanged with the frozen
outcome; an unfrozen world runs the normal path. -/
theorem freeze_holds_decision_witness :
    decide_failover cfg0 env0 w_frozen 0 = (w_frozen, Outcome.frozen) ∧
    decide_failover cfg0 env0 w0 0 = decide_core cfg0 env0 w0 0 :=
  ⟨(freeze_holds_decision cfg0 env0 w_frozen 0).1 rfl,
   (freeze_holds_decision cfg0 env0 w0 0).2 rfl⟩

/-! Claim C3: cooldown holds and releases — but only behind the freeze gate. -/

/-- A world inside the cooldown window of claim C3 that is also frozen. -/
def w_frozen_cooldown : World :=
  { st := { st0 with freeze := true, cooldown_seconds := 10, last_switch_at := some 0 },
    cache := [rec0] }

/-- C3 counterexample: with `cooldown_seconds = 10` and the last switch at
time 0, a decision at time 5 — squarely inside the cooldown window — reports
the frozen hold, not the cooldown hold, because the freeze gate is checked
first.  The claim as stated asserts the cooldown-hold outcome for every such
decision. -/
theorem freeze_precedes_cooldown_counterexample :
    w_frozen_cooldown.st.cooldown_seconds = 10 ∧
    w_frozen_cooldown.st.last_switch_at = some 0 ∧
    (5 : Int) - 0 < 10 ∧
    (decide_failover cfg0 env0 w_frozen_cooldown 5).2 ≠ Outcome.cooldownHold ∧
    (decide_failover cfg0 env0 w_frozen_cooldown 5).2 = Outcome.frozen := by
  refine ⟨rfl, rfl, by norm_num, by decide, rfl⟩

/-- C3 (amended): provided freeze is off, every decision made less than
`cooldown_seconds = C` after the recorded switch is the cooldown hold, leaving
the whole world (in particular `current_dns`) unchanged even if the health
state would qualify for a switch; and once at least C seconds have elapsed, a
qualifying health change (desired differs from current) with a non-empty
record cache does switch, restamping `last_switch_at`. -/
theorem cooldown_hold_and_release (cfg : Config) (env : Env) (w : World) (now t C : Int)
    (hf : w.st.freeze = false) (hC : w.st.cooldown_seconds = C) (hC0 : 0 < C)
    (hl : w.st.last_switch_at = some t) :
    (now - t < C → decide_failover cfg env w now = (w, Outcome.cooldownHold)) ∧
    (C ≤ now - t → desired_ip cfg (updateStreaks w.st) ≠ w.st.current_dns →
       w.cache ≠ [] →
       (decide_failover cfg env w now).2 =
         Outcome.switched (desired_ip cfg (updateStreaks w.st)) ∧
       (decide_failover cfg env w now).1.st.current_dns =
         desired_ip cfg (updateStreaks w.st) ∧
       (decide_failover cfg env w now).1.st.last_switch_at = some now) := by
  have hcur : (updateStreaks w.st).current_dns = w.st.current_dns := by
    rw [updateStreaks_spec]
  constructor
  · intro hlt
    have hck : cooldown_ok w.st now = false := by
      unfold cooldown_ok
      rw [hC, hl, if_neg (by omega)]
      exact decide_eq_false (by omega)
    rw [decide_failover_not_frozen cfg env w now hf,
        decide_core_cooldown cfg env w now hck]
  · intro hge hq hcache
    have hck : cooldown_ok w.st now = true := by
      unfold cooldown_ok
      rw [hC, hl, if_neg (by omega)]
      exact decide_eq_true (by omega)
    have hd : desired_ip cfg (updateStreaks w.st) ≠ (updateStreaks w.st).current_dns := by
      rw [hcur]
      exact hq
    rw [decide_failover_not_frozen cfg env w now hf,
        decide_core_switch cfg env w now hck hd hcache]
    exact ⟨rfl, rfl, rfl⟩

/-- A concrete world inside a 10-second cooldown with target 1 down, so a
switch to target 2 would otherwise qualify. -/
def w_cool : World :=
  { st := { st0 with
              cooldown_seconds := 10,
              last_switch_at := some 0,
              server1_up := false },
    cache := [rec0] }

/-- Witness for C3: at time 3 the qualifying change is held by the cooldown;
at time 50 it switches. -/
theorem cooldown_hold_and_release_witness :
    decide_failover cfg0 env0 w_cool 3 = (w_cool, Outcome.cooldownHold) ∧
    (decide_failover cfg0 env0 w_cool 50).2 =
      Outcome.switched (desired_ip cfg0 (updateStreaks w_cool.st)) :=
  ⟨(cooldown_hold_and_release cfg0 env0 w_cool 3 0 10 rfl rfl (by norm_num) rfl).1
     (by norm_num),
   ((cooldown_hold_and_release cfg0 env0 w_cool 50 0 10 rfl rfl (by norm_num) rfl).2
     (by norm_num) (by decide) (by decide)).1⟩

/-! Claim C7: publish with an empty cache mutates nothing. -/

/-- C7: a publish finding the record cache empty refreshes it first; when the
refresh still yields no managed record, it aborts: the in-memory state and the
persisted snapshot are untouched, no PUT was issued and nothing was
committed. -/
theorem publish_empty_cache_no_mutation (cfg : Config) (env : Env) (w : World)
    (ip : String) (now : Int)
    (h1 : w.cache = []) (h2 : load_dns_records cfg env.fetched = []) :
    update_dns cfg env w ip now =
      ({ w with cache := load_dns_records cfg env.fetched }, [], false) ∧
    (update_dns cfg env w ip now).1.st = w.st ∧
    (update_dns cfg env w ip now).1.persisted = w.persisted := by
  have hmain : update_dns cfg env w ip now =
      ({ w with cache := load_dns_records cfg env.fetched }, [], false) := by
    unfold update_dns
    rw [h1]
    simp [h2]
  rw [hmain]
  exact ⟨rfl, rfl, rfl⟩

/-- A concrete world with an empty record cache. -/
def w_empty : World := { st := st0 }

/-- Witness for C7: with nothing cached and nothing fetched, the publish
returns the refreshed-but-empty world and no commit. -/
theorem publish_empty_cache_no_mutation_witness :
    update_dns cfg0 env0 w_empty "5.6.7.8" 7 =
      ({ w_empty with cache := load_dns_records cfg0 env0.fetched }, [], false) :=
  (publish_empty_cache_no_mutation cfg0 env0 w_empty "5.6.7.8" 7 rfl rfl).1

/-! Claim C10: the manual switch bypasses freeze and cooldown. -/

/-- C10: the manual-switch endpoint invokes the synchronizer directly, so with
a non-empty record cache it sets the published pointer to the requested
target IP and stamps `last_switch_at` for every state — the freeze flag and
the cooldown window gate only the decision path, not publication. -/
theorem manual_switch_bypasses_gates (cfg : Config) (env : Env) (w : World) (now : Int)
    (target : String) (h : w.cache ≠ [])
    (ht : lower_str target = "server1" ∨ lower_str target = "server2") :
    ∃ r, api_switch cfg env w now target = some r ∧
      r.1.st.current_dns =
        (if lower_str target = "server1" then cfg.server1_ip else cfg.server2_ip) ∧
      r.1.st.last_switch_at = some now := by
  rcases ht with ht | ht
  · have hapi : api_switch cfg env w now target =
        some (update_dns cfg env w cfg.server1_ip now) := by
      unfold api_switch
      simp [ht]
    refine ⟨update_dns cfg env w cfg.server1_ip now, hapi, ?_, ?_⟩
    · rw [update_dns_publish cfg env w cfg.server1_ip now h, if_pos ht]
    · rw [update_dns_publish cfg env w cfg.server1_ip now h]
  · have hne : lower_str target ≠ "server1" := by
      rw [ht]
      decide
    have hapi : api_switch cfg env w now target =
        some (update_dns cfg env w cfg.server2_ip now) := by
      unfold api_switch
      simp [ht, hne]
    refine ⟨update_dns cfg env w cfg.server2_ip now, hapi, ?_, ?_⟩
    · rw [update_dns_publish cfg env w cfg.server2_ip now h, if_neg hne]
    · rw [update_dns_publish cfg env w cfg.server2_ip now h]

/-- A frozen world sitting inside a long cooldown window. -/
def w_gate : World :=
  { st := { st0 with
              freeze := true,
              cooldown_seconds := 1000,
              last_switch_at := some 0 },
    cache := [rec0] }

/-- Witness for C10: a manual switch to server 2 at time 1 succeeds although
the world is frozen and 999 seconds of cooldown remain. -/
theorem manual_switch_bypasses_gates_witness :
    ∃ r, api_switch cfg0 env0 w_gate 1 "server2" = some r ∧
      r.1.st.current_dns =
        (if lower_str "server2" = "server1" then cfg0.server1_ip else cfg0.server2_ip) ∧
      r.1.st.last_switch_at = some 1 :=
  manual_switch_bypasses_gates cfg0 env0 w_gate 1 "server2" (by decide)
    (Or.inr (by decide))

/-! Claim C6: publish attempts and the final commit. -/

/-- C6 (amended): with a non-empty cache, publish issues exactly one PUT per
cached record whose id is truthy — a record without an id is skipped — and the
list of issued PUTs does not depend on which of them fail; after the loop,
regardless of failures, `current_dns` is set to the new IP, `last_switch_at`
is stamped to now and the state is persisted. -/
theorem publish_attempts_and_commit (cfg : Config) (env : Env) (w : World) (ip : String)
    (now : Int) (h : w.cache ≠ []) :
    (update_dns cfg env w ip now).2.1 =
      (w.cache.filter (fun r => truthy_id r.id)).map
        (fun r =>
          { record_name := r.name, record_id := r.id.getD "",
            payload := { ptype := r.rtype.getD "A", name := r.name, content := ip,
                         ttl := w.st.ttl, proxied := r.proxied.getD false },
            ok := env.put_ok r }) ∧
    (update_dns cfg env w ip now).2.2 = true ∧
    (update_dns cfg env w ip now).1.st.current_dns = ip ∧
    (update_dns cfg env w ip now).1.st.last_switch_at = some now ∧
    (update_dns cfg env w ip now).1.persisted =
      some (update_dns cfg env w ip now).1.st := by
  rw [update_dns_publish cfg env w ip now h]
  exact ⟨put_loop_eq_filter_map env w.st.ttl ip w.cache, rfl, rfl, rfl, rfl⟩

/-- A cached record carrying no registrar id. -/
def rec_no_id : DnsRecord := { name := "bare.example.com" }

/-- A world whose non-empty cache holds only the id-less record. -/
def w_no_id : World := { st := st0, cache := [rec_no_id] }

/-- C6 counterexample: publishing over a non-empty cache whose record lacks a
registrar id issues no PUT at all — so an update is not attempted for every
cached record — while the commit of `current_dns` still happens. -/
theorem idless_record_counterexample :
    w_no_id.cache = [rec_no_id] ∧
    (update_dns cfg0 env0 w_no_id "5.6.7.8" 9).2.1 = [] ∧
    (update_dns cfg0 env0 w_no_id "5.6.7.8" 9).1.st.current_dns = "5.6.7.8" :=
  ⟨rfl, rfl, rfl⟩

/-- Witness for C6 at the one-record world: the single id-bearing record gets
its PUT and the commit advances the pointer and the stamp. -/
theorem publish_attempts_and_commit_witness :
    (update_dns cfg0 env0 w0 "5.6.7.8" 9).2.1 =
      (w0.cache.filter (fun r => truthy_id r.id)).map
        (fun r =>
          { record_name := r.name, record_id := r.id.getD "",
            payload := { ptype := r.rtype.getD "A", name := r.name,
                         content := "5.6.7.8", ttl := w0.st.ttl,
                         proxied := r.proxied.getD false },
            ok := env0.put_ok r }) ∧
    (update_dns cfg0 env0 w0 "5.6.7.8" 9).2.2 = true ∧
    (update_dns cfg0 env0 w0 "5.6.7.8" 9).1.st.current_dns = "5.6.7.8" ∧
    (update_dns cfg0 env0 w0 "5.6.7.8" 9).1.st.last_switch_at = some 9 ∧
    (update_dns cfg0 env0 w0 "5.6.7.8" 9).1.persisted =
      some (update_dns cfg0 env0 w0 "5.6.7.8" 9).1.st :=
  publish_attempts_and_commit cfg0 env0 w0 "5.6.7.8" 9 (by decide)

/-! Claim C9: secret redaction in exported views. -/

/-- Evaluation of `to_public` on a state whose secret is truthy: the streak
keys are gone and the secret is masked. -/
theorem to_public_masks (st : ServiceState) (s : String)
    (h1 : st.webhook_secret = some s) (h2 : s ≠ "") :
    ServiceState.to_public st =
      [("server1_up", FieldVal.vb st.server1_up),
       ("server2_up", FieldVal.vb st.server2_up),
       ("current_dns", FieldVal.vs st.current_dns),
       ("last_switch_at", optIntField st.last_switch_at),
       ("freeze", FieldVal.vb st.freeze),
       ("ttl", FieldVal.vi st.ttl),
       ("webhook_secret", FieldVal.vs "***"),
       ("down_threshold", FieldVal.vi st.down_threshold),
       ("up_threshold", FieldVal.vi st.up_threshold),
       ("cooldown_seconds", FieldVal.vi st.cooldown_seconds)] := by
  have hb : (s != "") = true := bne_iff_ne.mpr h2
  have hstep : ServiceState.to_public st =
      (if (s != "") = true then
        [("server1_up", FieldVal.vb st.server1_up),
         ("server2_up", FieldVal.vb st.server2_up),
         ("current_dns", FieldVal.vs st.current_dns),
         ("last_switch_at", optIntField st.last_switch_at),
         ("freeze", FieldVal.vb st.freeze),
         ("ttl", FieldVal.vi st.ttl),
         ("webhook_secret", FieldVal.vs "***"),
         ("down_threshold", FieldVal.vi st.down_threshold),
         ("up_threshold", FieldVal.vi st.up_threshold),
         ("cooldown_seconds", FieldVal.vi st.cooldown_seconds)]
      else
        [("server1_up", FieldVal.vb st.server1_up),
         ("server2_up", FieldVal.vb st.server2_up),
         ("current_dns", FieldVal.vs st.current_dns),
         ("last_switch_at", optIntField st.last_switch_at),
         ("freeze", FieldVal.vb st.freeze),
         ("ttl", FieldVal.vi st.ttl),
         ("webhook_secret", FieldVal.vs s),
         ("down_threshold", FieldVal.vi st.down_threshold),
         ("up_threshold", FieldVal.vi st.up_threshold),
         ("cooldown_seconds", FieldVal.vi st.cooldown_seconds)]) := by
    unfold ServiceState.to_public ServiceState.asdict
    rw [h1]
    rfl
  rw [hstep, if_pos hb]

/-- C9: a truthy stored secret never appears among the values of the exported
public view — the secret slot there is the mask — while the durable record
written by `save` does carry the real secret; `load` generates a secret
exactly when the stored one is absent (keeping a present one), and the next
`save` of a loaded state writes the generated secret to the durable record. -/
theorem webhook_secret_redaction (st : ServiceState) (s : String)
    (h1 : st.webhook_secret = some s) (h2 : s ≠ "") (h3 : s ≠ "***")
    (h4 : s ≠ st.current_dns) :
    FieldVal.vs s ∉ (ServiceState.to_public st).map Prod.snd ∧
    List.lookup "webhook_secret" (ServiceState.to_public st) =
      some (FieldVal.vs "***") ∧
    List.lookup "webhook_secret" (ServiceState.save_record st) =
      some (FieldVal.vs s) ∧
    (∀ (stD : ServiceState) (fresh : String), stD.webhook_secret = none →
       (ServiceState.load_core stD fresh).webhook_secret = some fresh ∧
       List.lookup "webhook_secret"
           (ServiceState.save_record (ServiceState.load_core stD fresh)) =
         some (FieldVal.vs fresh)) ∧
    (∀ (st1 : ServiceState) (fresh : String), st1.webhook_secret = some s →
       ServiceState.load_core st1 fresh = st1) := by
  rw [to_public_masks st s h1 h2]
  refine ⟨?_, rfl, ?_, ?_, ?_⟩
  · cases hls : st.last_switch_at <;> simp [optIntField, h3, h4]
  · unfold ServiceState.save_record ServiceState.asdict
    rw [h1]
    rfl
  · intro stD fresh hD
    constructor
    · unfold ServiceState.load_core
      rw [hD]
    · unfold ServiceState.load_core
      rw [hD]
      rfl
  · intro st1 fresh h1'
    unfold ServiceState.load_core
    rw [h1']
    exact if_neg h2

/-- A concrete state carrying a truthy secret. -/
def st_sec : ServiceState := { st0 with webhook_secret := some "tok-abc" }

/-- Witness for C9 at a concrete secret. -/
theorem webhook_secret_redaction_witness :
    FieldVal.vs "tok-abc" ∉ (ServiceState.to_public st_sec).map Prod.snd ∧
    List.lookup "webhook_secret" (ServiceState.to_public st_sec) =
      some (FieldVal.vs "***") ∧
    List.lookup "webhook_secret" (ServiceState.save_record st_sec) =
      some (FieldVal.vs "tok-abc") ∧
    (ServiceState.load_core st0 "fresh1").webhook_secret = some "fresh1" ∧
    ServiceState.load_core st_sec "fresh1" = st_sec := by
  have h := webhook_secret_redaction st_sec "tok-abc" rfl (by decide) (by decide)
    (by decide)
  exact ⟨h.1, h.2.1, h.2.2.1, (h.2.2.2.1 st0 "fresh1" rfl).1,
    h.2.2.2.2 st_sec "fresh1" rfl⟩

/-! Claim C5: malformed heartbeat bodies. -/

/-- A malformed status always parses to `False` — the down value — never to an
error. -/
theorem malformed_parse_false (body : JVal) (hm : malformed_status body = true) :
    parse_status body = false := by
  unfold malformed_status at hm
  unfold parse_status
  cases hh : heartbeat_obj body with
  | none => rfl
  | some hfields =>
    rw [hh] at hm
    have hm' : (match jlookup hfields "status" with
        | none => true
        | some v => (pyInt v).isNone) = true := hm
    show (match pyInt ((jlookup hfields "status").getD (JVal.jnum 0)) with
      | some n => n == 1
      | none => false) = false
    cases hs : jlookup hfields "status" with
    | none => rfl
    | some v =>
      rw [hs] at hm'
      have hv : pyInt v = none := by
        have hm'' : (pyInt v).isNone = true := hm'
        exact Option.isNone_iff_eq_none.mp hm''
      show (match pyInt v with
        | some n => n == 1
        | none => false) = false
      rw [hv]

/-- How `update_dns` preserves every field other than the published pointer
and the switch stamp. -/
theorem update_dns_preserves (cfg : Config) (env : Env) (w : World) (ip : String)
    (now : Int) :
    (update_dns cfg env w ip now).1.st.server1_up = w.st.server1_up ∧
    (update_dns cfg env w ip now).1.st.server2_up = w.st.server2_up ∧
    (update_dns cfg env w ip now).1.st.freeze = w.st.freeze ∧
    (update_dns cfg env w ip now).1.st.s1_up_streak = w.st.s1_up_streak ∧
    (update_dns cfg env w ip now).1.st.s1_down_streak = w.st.s1_down_streak ∧
    (update_dns cfg env w ip now).1.st.s2_up_streak = w.st.s2_up_streak ∧
    (update_dns cfg env w ip now).1.st.s2_down_streak = w.st.s2_down_streak := by
  unfold update_dns
  dsimp only
  split
  · split <;> exact ⟨rfl, rfl, rfl, rfl, rfl, rfl, rfl⟩
  · exact ⟨rfl, rfl, rfl, rfl, rfl, rfl, rfl⟩

/-- After a live decision (cooldown passed) the resulting state is the
streak-updated state, possibly with the published pointer and switch stamp
rewritten by the publish. -/
theorem decide_core_st_cases (cfg : Config) (env : Env) (w : World) (now : Int)
    (hc : cooldown_ok w.st now = true) :
    (decide_core cfg env w now).1.st = updateStreaks w.st ∨
    (decide_core cfg env w now).1.st =
      { updateStreaks w.st with
          current_dns := desired_ip cfg (updateStreaks w.st),
          last_switch_at := some now } := by
  unfold decide_core
  rw [if_pos hc]
  dsimp only
  split
  · left
    rfl
  · unfold update_dns
    dsimp only
    split
    · split
      · left
        rfl
      · right
        rfl
    · right
      rfl

/-- C5 (amended): a heartbeat request whose body carries a missing or
non-numeric status is not rejected: with a valid webhook secret the request is
accepted, the status is coerced to the down value `false`, and the handler
stores that flag — changing it when the target was up — before running a
decision; the tracker still only ever receives a resolved boolean. -/
theorem malformed_heartbeat_coerced_down (cfg : Config) (env : Env) (w : World)
    (now : Int) (header : Option String) (body : JVal)
    (hsec : check_webhook_secret w.st header = true)
    (hm : malformed_status body = true) :
    parse_status body = false ∧
    webhook_server1 cfg env w now header body =
      some (heartbeat_s1 cfg env w now false) := by
  have hp := malformed_parse_false body hm
  refine ⟨hp, ?_⟩
  unfold webhook_server1
  rw [hsec]
  simp [hp]

/-- A concrete world expecting the webhook secret `k`, target 1 up. -/
def w_sec : World := { st := { st0 with webhook_secret := some "k" }, cache := [rec0] }

/-- C5 counterexample: an authenticated heartbeat whose body is the empty JSON
object (status missing, hence malformed) is accepted — the handler answers
instead of rejecting — and flips the server-1 flag from its prior `true` to
`false`, contradicting no-state-change. -/
theorem malformed_heartbeat_counterexample :
    w_sec.st.server1_up = true ∧
    malformed_status (JVal.jobj []) = true ∧
    (webhook_server1 cfg0 env0 w_sec 0 (some "k") (JVal.jobj [])).isSome = true ∧
    ((webhook_server1 cfg0 env0 w_sec 0 (some "k") (JVal.jobj [])).map
       (fun r => r.1.st.server1_up)) = some false :=
  ⟨rfl, rfl, rfl, rfl⟩

/-- Witness for C5 at the empty-object body. -/
theorem malformed_heartbeat_coerced_down_witness :
    parse_status (JVal.jobj []) = false ∧
    webhook_server1 cfg0 env0 w_sec 0 (some "k") (JVal.jobj []) =
      some (heartbeat_s1 cfg0 env0 w_sec 0 false) :=
  malformed_heartbeat_coerced_down cfg0 env0 w_sec 0 (some "k") (JVal.jobj [])
    rfl rfl

/-! Claim C8: what one heartbeat does to the flag and the streaks. -/

/-- C8 (amended): a server-1 heartbeat always records the reported flag; the
streak counters move only when the ensuing decision is not held: with freeze
off and cooldown passed, the decision updates both targets in one step — the
reporting target increments its matching streak and zeroes the opposite one,
and server 2 does the same from its current flag; under freeze, or inside the
cooldown window, the flag is still stored but every streak is left untouched
(the decision returns before the streak block). -/
theorem report_updates_flag_and_streaks (cfg : Config) (env : Env) (w : World)
    (now : Int) (u : Bool) :
    (w.st.freeze = false → cooldown_ok w.st now = true →
       (heartbeat_s1 cfg env w now u).1.st.server1_up = u ∧
       (heartbeat_s1 cfg env w now u).1.st.s1_up_streak =
         (if u then w.st.s1_up_streak + 1 else 0) ∧
       (heartbeat_s1 cfg env w now u).1.st.s1_down_streak =
         (if u then 0 else w.st.s1_down_streak + 1) ∧
       (heartbeat_s1 cfg env w now u).1.st.s2_up_streak =
         (if w.st.server2_up then w.st.s2_up_streak + 1 else 0) ∧
       (heartbeat_s1 cfg env w now u).1.st.s2_down_streak =
         (if w.st.server2_up then 0 else w.st.s2_down_streak + 1)) ∧
    (w.st.freeze = true → (heartbeat_s1 cfg env w now u).1 = report_s1 w u) ∧
    (w.st.freeze = false → cooldown_ok w.st now = false →
       (heartbeat_s1 cfg env w now u).1 = report_s1 w u) := by
  refine ⟨?_, ?_, ?_⟩
  · intro hf hc
    have hf' : (report_s1 w u).st.freeze = false := hf
    have hc' : cooldown_ok (report_s1 w u).st now = true := hc
    have hdec : heartbeat_s1 cfg env w now u =
        decide_core cfg env (report_s1 w u) now := by
      unfold heartbeat_s1
      exact decide_failover_not_frozen cfg env (report_s1 w u) now hf'
    rcases decide_core_st_cases cfg env (report_s1 w u) now hc' with h | h <;>
      refine ⟨?_, ?_, ?_, ?_, ?_⟩ <;>
        · rw [hdec, h, updateStreaks_spec]
          simp [report_s1]
  · intro hf
    have hf' : (report_s1 w u).st.freeze = true := hf
    unfold heartbeat_s1
    rw [decide_failover_frozen cfg env (report_s1 w u) now hf']
  · intro hf hc
    have hf' : (report_s1 w u).st.freeze = false := hf
    have hc' : cooldown_ok (report_s1 w u).st now = false := hc
    unfold heartbeat_s1
    rw [decide_failover_not_frozen cfg env (report_s1 w u) now hf',
        decide_core_cooldown cfg env (report_s1 w u) now hc']

/-- C8 counterexample: under freeze, an up heartbeat sets the flag but the
up-streak stays at 0 instead of incrementing to 1 in the same step, as the
claim requires of every applied heartbeat. -/
theorem report_freeze_counterexample :
    w_frozen.st.freeze = true ∧
    w_frozen.st.s1_up_streak = 0 ∧
    (heartbeat_s1 cfg0 env0 w_frozen 0 true).1.st.server1_up = true ∧
    (heartbeat_s1 cfg0 env0 w_frozen 0 true).1.st.s1_up_streak = 0 :=
  ⟨rfl, rfl, rfl, rfl⟩

/-- Witness for C8: a live world updates flag and streaks together; a frozen
world stores only the flag. -/
theorem report_updates_flag_and_streaks_witness :
    (heartbeat_s1 cfg0 env0 w0 0 true).1.st.server1_up = true ∧
    (heartbeat_s1 cfg0 env0 w0 0 true).1.st.s1_up_streak =
      (if true then w0.st.s1_up_streak + 1 else 0) ∧
    (heartbeat_s1 cfg0 env0 w_frozen 0 true).1 = report_s1 w_frozen true := by
  have h1 := (report_updates_flag_and_streaks cfg0 env0 w0 0 true).1 rfl rfl
  have h2 := (report_updates_flag_and_streaks cfg0 env0 w_frozen 0 true).2.1 rfl
  exact ⟨h1.1, h1.2.1, h2⟩

/-! Claim C2: the failover and promotion scenario with hysteresis. -/

/-- A fresh world with `up_threshold = 2`: both targets up, all streaks 0,
freeze off, no cooldown, DNS on target 1. -/
def w_fresh2 : World := { st := { st0 with up_threshold := 2 }, cache := [rec0] }

/-- C2 counterexample: from the fresh streak-zero state with
`up_threshold = 2` (target 1 up, target 2 up, freeze off, no cooldown, DNS on
target 1), the heartbeat reporting target 1 down does not switch: target 2 is
itself gated by the streak rule and its up-streak has only just reached 1, so
the decision holds DNS at target 1 — the claim asserts this heartbeat switches
to target 2. -/
theorem hysteresis_fresh_counterexample :
    w_fresh2.st.up_threshold = 2 ∧
    w_fresh2.st.server1_up = true ∧
    w_fresh2.st.server2_up = true ∧
    w_fresh2.st.freeze = false ∧
    w_fresh2.st.cooldown_seconds = 0 ∧
    w_fresh2.st.current_dns = cfg0.server1_ip ∧
    w_fresh2.cache ≠ [] ∧
    (heartbeat_s1 cfg0 env0 w_fresh2 0 false).2 = Outcome.unchanged ∧
    (heartbeat_s1 cfg0 env0 w_fresh2 0 false).1.st.current_dns = cfg0.server1_ip :=
  ⟨rfl, rfl, rfl, rfl, rfl, rfl, by decide, rfl, rfl⟩

/-- C2 (amended): with `up_threshold = 2`, target 1 up, target 2 up with an
up-streak already at least 1 (so that target 2 passes its own streak gate once
this decision increments it), freeze off, cooldown disabled, a non-empty
record cache and distinct target IPs, starting from DNS on target 1: the
heartbeat reporting target 1 down switches to target 2; a single following up
heartbeat for target 1 causes no switch (streak 1 < 2); a second consecutive
up heartbeat switches back to target 1.  In general, for `up_threshold = N > 1`
and any live world on target 2 with the target-1 up-streak at 0, fewer than N
consecutive up heartbeats leave DNS on target 2, and N of them promote back to
target 1. -/
theorem hysteresis_promotion (cfg : Config) (env : Env) (w : World)
    (nowA nowB nowC : Int)
    (hip : cfg.server1_ip ≠ cfg.server2_ip)
    (hf : w.st.freeze = false) (hcd : w.st.cooldown_seconds = 0)
    (hthr : w.st.up_threshold = 2)
    (hs2 : w.st.server2_up = true) (hs2k : 1 ≤ w.st.s2_up_streak)
    (hcur : w.st.current_dns = cfg.server1_ip)
    (hcache : w.cache ≠ []) :
    ((heartbeat_s1 cfg env w nowA false).2 = Outcome.switched cfg.server2_ip ∧
     (heartbeat_s1 cfg env w nowA false).1.st.current_dns = cfg.server2_ip) ∧
    ((heartbeat_s1 cfg env (heartbeat_s1 cfg env w nowA false).1 nowB true).2 =
       Outcome.unchanged ∧
     (heartbeat_s1 cfg env (heartbeat_s1 cfg env w nowA false).1 nowB
         true).1.st.current_dns = cfg.server2_ip) ∧
    ((heartbeat_s1 cfg env
        (heartbeat_s1 cfg env (heartbeat_s1 cfg env w nowA false).1 nowB true).1
        nowC true).2 = Outcome.switched cfg.server1_ip ∧
     (heartbeat_s1 cfg env
        (heartbeat_s1 cfg env (heartbeat_s1 cfg env w nowA false).1 nowB true).1
        nowC true).1.st.current_dns = cfg.server1_ip) ∧
    (∀ (N : Nat) (w' : World), 2 ≤ N → w'.st.freeze = false →
       w'.st.cooldown_seconds = 0 → w'.st.up_threshold = (N : Int) →
       w'.st.s1_up_streak = 0 → w'.st.current_dns = cfg.server2_ip →
       w'.cache ≠ [] →
       (∀ k : Nat, (k : Int) < (N : Int) →
          (s1_up_run cfg env nowB k w').st.current_dns = cfg.server2_ip) ∧
       (s1_up_run cfg env nowB N w').st.current_dns = cfg.server1_ip) := by
  have hA := fail_step cfg env w nowA hf hcd hs2
    (Or.inr (by rw [hthr]; omega)) hcur hip hcache
  have hcast : ((2 : Nat) : Int) = (2 : Int) := by norm_num
  have hinvA : promo_inv cfg 2 0 (heartbeat_s1 cfg env w nowA false).1 := by
    refine ⟨hA.2.1, hA.2.2.1, ?_, hA.2.2.2.2.1, hA.2.2.2.2.2.1, ?_⟩
    · rw [hA.2.2.2.1, hthr, hcast]
    · rw [hA.2.2.2.2.2.2.2]
      exact hcache
  have hB := hold_step cfg env (heartbeat_s1 cfg env w nowA false).1 nowB 2 0
    (le_refl 2) hinvA (by rw [hcast]; omega)
  have hC := promote_step cfg env
    (heartbeat_s1 cfg env (heartbeat_s1 cfg env w nowA false).1 nowB true).1 nowC
    2 (0 + 1) (le_refl 2) hB.2 (by rw [hcast]; omega) hip
  refine ⟨⟨hA.1, hA.2.2.2.2.2.1⟩, ⟨hB.1, hB.2.2.2.2.2.1⟩, ⟨hC.1, hC.2.1⟩, ?_⟩
  intro N w' h2 hf' hcd' hthr' hs1' hcur' hcache'
  have hrun := s1_up_run_promotes cfg env nowB N h2 hip w'
    ⟨hf', hcd', hthr', hs1', hcur', hcache'⟩
  exact ⟨hrun.1, hrun.2.1⟩

/-- A concrete world ready for the C2 scenario: `up_threshold = 2` and target
2 already carrying an up-streak of 1. -/
def w_hyst : World :=
  { st := { st0 with
              up_threshold := 2,
              s2_up_streak := 1 },
    cache := [rec0] }

/-- Witness for C2: down–up–up drives DNS to target 2 and back. -/
theorem hysteresis_promotion_witness :
    (heartbeat_s1 cfg0 env0 w_hyst 0 false).2 = Outcome.switched cfg0.server2_ip ∧
    (heartbeat_s1 cfg0 env0 (heartbeat_s1 cfg0 env0 w_hyst 0 false).1 1 true).2 =
      Outcome.unchanged ∧
    (heartbeat_s1 cfg0 env0
       (heartbeat_s1 cfg0 env0 (heartbeat_s1 cfg0 env0 w_hyst 0 false).1 1 true).1
       2 true).2 = Outcome.switched cfg0.server1_ip := by
  have h := hysteresis_promotion cfg0 env0 w_hyst 0 1 2 (by decide) rfl rfl rfl rfl
    (by decide) rfl (by decide)
  exact ⟨h.1.1, h.2.1.1, h.2.2.1.1⟩

end Failover
